import Mathlib

/-!
Verification of the node-utilization descheduler strategy
(`pkg/descheduler/strategies/nodeutilization/highnodeutilization.go`).

Resource percentages (`api.ResourceThresholds`, a `map[ResourceName]Percentage`)
are embedded as association lists from resource-kind names to rational numbers;
`resource.Quantity` amounts are embedded as integers.  Functions present in the
source file are translated directly; external collaborators and helpers that
live outside the excerpted source are modelled from the specification and say
so in their doc comments.
-/

set_option autoImplicit false

namespace NodeUtilization

/-- A resource-threshold map (`api.ResourceThresholds`): resource-kind name to
percentage value, with Go-map insert/lookup semantics. -/
abbrev ResourceThresholds := List (String × Rat)

/-- Lookup of a key in a threshold map (Go map read). -/
def RTlookup : ResourceThresholds → String → Option Rat
  | [], _ => none
  | (k, v) :: rest, key => if k = key then some v else RTlookup rest key

/-- Insert of a key in a threshold map (Go map write: overwrite if present,
otherwise add). -/
def RTinsert : ResourceThresholds → String → Rat → ResourceThresholds
  | [], key, val => [(key, val)]
  | (k, v) :: rest, key, val =>
    if k = key then (key, val) :: rest else (k, v) :: RTinsert rest key val

/-- `v1.ResourceCPU`. -/
def resourceCPU : String := "cpu"

/-- `v1.ResourceMemory`. -/
def resourceMemory : String := "memory"

/-- `v1.ResourcePods`. -/
def resourcePods : String := "pods"

/-- `v1.ResourceStorage`, a standard resource kind outside the allowed set. -/
def resourceStorage : String := "storage"

/-- Modelled from the spec: the percentage bounds used by the Threshold
Validator are Min = 0 and Max = 100 (the constants `MinResourcePercentage` and
`MaxResourcePercentage` of the surrounding package). -/
def MinResourcePercentage : Rat := 0

/-- Modelled from the spec: the maximum percentage value, 100. -/
def MaxResourcePercentage : Rat := 100

/-- Modelled from the spec: the three well-known basic resource kinds are
compute (cpu), memory and pod-count (`isBasicResource` of the surrounding
package). -/
def isBasicResource (name : String) : Bool :=
  name = resourceCPU || name = resourceMemory || name = resourcePods

/-- Modelled from the spec: arbitrary named extended-resource kinds are
fully-qualified names carrying a domain separator, as exercised by
`TestValidateThresholds` (`example.com/foo` is accepted while the plain name
`coolResource` is rejected). -/
def isExtendedResource (name : String) : Bool :=
  name.data.contains '/'

/-- A resource kind the Threshold Validator accepts: one of the three basic
kinds, or an extended kind. -/
def isSupportedResource (name : String) : Bool :=
  isBasicResource name || isExtendedResource name

/-- A node of the cluster snapshot: identity plus the schedulability flag the
orchestration layer attaches to it. -/
structure Node where
  name : String
  unschedulable : Bool
deriving DecidableEq

/-- Modelled from the spec: `nodeutil.IsNodeUnschedulable` reads the node's
schedulability flag from the cluster snapshot. -/
def isNodeUnschedulable (node : Node) : Bool :=
  node.unschedulable

/-- A `NodeUsage`: the node together with its per-resource utilization
percentages as computed by the Usage Calculator. -/
structure NodeUsage where
  node : Node
  usagePct : List (String × Rat)
deriving DecidableEq

/-- Per-resource percentage of a node usage; a resource kind the Usage
Calculator did not report is read as zero. -/
def usagePctOf (usage : NodeUsage) (name : String) : Rat :=
  match RTlookup usage.usagePct name with
  | some v => v
  | none => 0

/-- Modelled from the spec: `isNodeWithLowUtilization` (outside the excerpted
source) — the low-utilization donor test is true iff, for every resource kind
in the low threshold map, the node's utilization percentage is below the
configured low threshold for that kind (§4.3; strict-less-than per §9). -/
def isNodeWithLowUtilization (low : ResourceThresholds)
    (usage : NodeUsage) : Bool :=
  low.all (fun kv => decide (usagePctOf usage kv.1 < kv.2))

/-- The donor predicate `HighNodeUtilization` passes to the classifier
(highnodeutilization.go lines 64-66): the node is a low-utilization node (the
source's lambda ignores its node argument). -/
def lowUtilDonorFilter (low : ResourceThresholds) (_node : Node)
    (usage : NodeUsage) : Bool :=
  isNodeWithLowUtilization low usage

/-- The receiver predicate `HighNodeUtilization` passes to the classifier
(highnodeutilization.go lines 67-73): unschedulable nodes are rejected,
otherwise the node qualifies iff it is not a low-utilization node. -/
def highUtilReceiverFilter (low : ResourceThresholds) (node : Node)
    (usage : NodeUsage) : Bool :=
  if isNodeUnschedulable node then false
  else !(isNodeWithLowUtilization low usage)

/-- Modelled from the spec: the Node Classifier (§4.3) — a single linear pass
preserving input order; predicates are evaluated independently per node, a
node enters the donor sequence if the donor predicate holds and the receiver
sequence if the receiver predicate holds, and a node satisfying neither is
excluded from both. -/
def classifyNodes (usages : List NodeUsage)
    (donorP receiverP : Node → NodeUsage → Bool) :
    List NodeUsage × List NodeUsage :=
  (usages.filter (fun u => donorP u.node u),
   usages.filter (fun u => receiverP u.node u))

/-- The `api.NodeResourceUtilizationThresholds` configuration record. -/
structure NRUThresholds where
  useDeviationThresholds : Bool
  thresholds : ResourceThresholds
  targetThresholds : ResourceThresholds
  numberOfNodes : Int
deriving DecidableEq

/-- One `if _, ok := m[key]; !ok { m[key] = MaxResourcePercentage }` step of
`setDefaultForThresholds`. -/
def addDefaultIfMissing (m : ResourceThresholds) (key : String) :
    ResourceThresholds :=
  if (RTlookup m key).isSome then m
  else RTinsert m key MaxResourcePercentage

/-- The low map after `setDefaultForThresholds` filled in the three basic
kinds (highnodeutilization.go lines 144-152, in source order: pods, cpu,
memory). -/
def defaultBasicLow (m : ResourceThresholds) : ResourceThresholds :=
  addDefaultIfMissing
    (addDefaultIfMissing (addDefaultIfMissing m resourcePods) resourceCPU)
    resourceMemory

/-- The target map after `setDefaultForThresholds` set the three basic kinds
to 100 (highnodeutilization.go lines 155-157, in source order: pods, cpu,
memory). -/
def basicTargets (m : ResourceThresholds) : ResourceThresholds :=
  RTinsert
    (RTinsert (RTinsert m resourcePods MaxResourcePercentage)
      resourceCPU MaxResourcePercentage)
    resourceMemory MaxResourcePercentage

/-- The loop of `setDefaultForThresholds` (highnodeutilization.go lines
159-163): every non-basic kind of the low map is set to 100 in the target
map. -/
def defaultExtendedTargets (target : ResourceThresholds)
    (low : ResourceThresholds) : ResourceThresholds :=
  low.foldl
    (fun acc kv =>
      if isBasicResource kv.1 then acc
      else RTinsert acc kv.1 MaxResourcePercentage) target

/-- `setDefaultForThresholds` (highnodeutilization.go lines 141-164): fill in
the three basic kinds in the low map when absent, set the three basic kinds of
the target map to 100, and set every non-basic kind of the (defaulted) low map
to 100 in the target map. -/
def setDefaultForThresholds (t : NRUThresholds) : NRUThresholds :=
  { t with
    thresholds := defaultBasicLow t.thresholds,
    targetThresholds :=
      defaultExtendedTargets (basicTargets t.targetThresholds)
        (defaultBasicLow t.thresholds) }

/-- The continuation predicate built inside `HighNodeUtilization`
(highnodeutilization.go lines 110-118): walk the total-available-usage ledger
and return false as soon as some quantity compares `≤ 0`
(`CmpInt64(0) < 1`); return true when the walk finishes. -/
def continueEvictionCond (nodeUsage : NodeUsage) :
    List (String × Int) → Bool
  | [] => true
  | (_, q) :: rest =>
    if q ≤ 0 then false else continueEvictionCond nodeUsage rest

/-- The distinct configuration errors produced by the Threshold Validator and
the strategy-config validators. -/
inductive ConfigError where
  /-- "no resource threshold is configured" -/
  | noThreshold
  /-- "only cpu, memory, or pods thresholds can be specified" -/
  | unsupportedName
  /-- "(name) threshold not in (Min, Max) range" with Min = 0, Max = 100,
  naming the offending resource kind -/
  | outOfRange (name : String)
  /-- "targetThresholds is not applicable for HighNodeUtilization" -/
  | targetNotApplicable
  /-- "NodeResourceUtilizationThresholds not set" -/
  | paramsNotSet
  /-- "thresholds config is not valid: (inner)" -/
  | thresholdsInvalid (inner : ConfigError)
deriving DecidableEq

/-- A percentage value of the low map violating the range rule: outside the
closed range from `MinResourcePercentage` to `MaxResourcePercentage`. -/
def violatesRange (v : Rat) : Bool :=
  decide (v < MinResourcePercentage) || decide (MaxResourcePercentage < v)

/-- A percentage value of the target map violating the range rule: below
`MinResourcePercentage`, or above `MaxResourcePercentage` unless deviation
thresholds are in use. -/
def violatesTargetRange (useDeviation : Bool) (v : Rat) : Bool :=
  decide (v < MinResourcePercentage)
  || (!useDeviation && decide (MaxResourcePercentage < v))

/-- First key of the map whose resource kind is not supported. -/
def findUnsupportedKey : ResourceThresholds → Option String
  | [] => none
  | (k, _) :: rest =>
    if isSupportedResource k then findUnsupportedKey rest else some k

/-- First key of the map whose percentage violates the given range rule. -/
def findViolatingKey (bad : Rat → Bool) : ResourceThresholds → Option String
  | [] => none
  | (k, v) :: rest =>
    if bad v then some k else findViolatingKey bad rest

/-- Modelled from the spec: the Threshold Validator `validateThresholds`
(outside the excerpted source; behaviour fixed by §4.2 and
`TestValidateThresholds`).  An absent (nil) or empty map on either side fails
with "no resource threshold is configured"; a standard resource kind outside
cpu/memory/pods in either map fails with "only cpu, memory, or pods thresholds
can be specified"; a percentage outside the closed range 0..100 in either map
fails with a range error naming the offending kind, except that values above
100 in the target map are legal when `UseDeviationThresholds` is set.  The
checks run in the order the spec lists them. -/
def validateThresholds (c : NRUThresholds) : Option ConfigError :=
  if c.thresholds.isEmpty || c.targetThresholds.isEmpty then
    some ConfigError.noThreshold
  else match findUnsupportedKey c.thresholds with
  | some _ => some ConfigError.unsupportedName
  | none => match findUnsupportedKey c.targetThresholds with
    | some _ => some ConfigError.unsupportedName
    | none => match findViolatingKey violatesRange c.thresholds with
      | some k => some (ConfigError.outOfRange k)
      | none =>
        match findViolatingKey
            (violatesTargetRange c.useDeviationThresholds)
            c.targetThresholds with
        | some k => some (ConfigError.outOfRange k)
        | none => none

/-- Modelled from the spec: `validateThresholdsHigh` (outside the excerpted
source) — the Threshold Validator restricted to the user-configured low map of
the high-utilization direction (§4.2, §4.5): absent/empty map, unsupported
standard kinds, and percentages outside 0..100 are configuration errors. -/
def validateThresholdsHigh (c : NRUThresholds) : Option ConfigError :=
  if c.thresholds.isEmpty then some ConfigError.noThreshold
  else match findUnsupportedKey c.thresholds with
  | some _ => some ConfigError.unsupportedName
  | none => match findViolatingKey violatesRange c.thresholds with
    | some k => some (ConfigError.outOfRange k)
    | none => none

/-- `validateHighUtilizationStrategyConfig` (highnodeutilization.go lines
131-139): a non-empty target map is the error "targetThresholds is not
applicable for HighNodeUtilization"; otherwise the low map is validated and a
failure is wrapped as "thresholds config is not valid". -/
def validateHighUtilizationStrategyConfig (thresholds : NRUThresholds) :
    Option ConfigError :=
  if thresholds.targetThresholds.length != 0 then
    some ConfigError.targetNotApplicable
  else match validateThresholdsHigh thresholds with
  | some e => some (ConfigError.thresholdsInvalid e)
  | none => none

/-- The `api.StrategyParameters` reached through `strategy.Params`: the
node-fit flag and the (possibly absent) threshold configuration.  The
priority-threshold fields are resolved by an external collaborator and enter
the run model as an explicit success flag instead. -/
structure StrategyParams where
  nodeFit : Bool
  nodeResourceUtilizationThresholds : Option NRUThresholds
deriving DecidableEq

/-- The `api.DeschedulerStrategy` surface the entry point consumes: the
possibly absent `Params` pointer. -/
structure DeschedulerStrategy where
  params : Option StrategyParams
deriving DecidableEq

/-- Modelled from the spec: `validateNodeUtilizationParams` (outside the
excerpted source) — the entry point's parameter validation rejects an absent
configuration surface: nil `Params`, or a nil
`NodeResourceUtilizationThresholds` inside it, is a configuration error,
fatal to the run (§4.2, §7). -/
def validateNodeUtilizationParams (params : Option StrategyParams) :
    Option ConfigError :=
  match params with
  | none => some ConfigError.paramsNotSet
  | some p =>
    match p.nodeResourceUtilizationThresholds with
    | none => some ConfigError.paramsNotSet
    | some _ => none

/-- How one call of `HighNodeUtilization` ends.  Every constructor except
`evictionLoop` is an early return taken before the eviction loop is entered;
`nilDereference` stands for the fault of dereferencing a nil
`strategy.Params` (or a nil threshold configuration) at
highnodeutilization.go line 52. -/
inductive RunOutcome where
  | invalidParams
  | priorityError
  | nilDereference
  | invalidConfig
  | noUnderutilized
  | tooFewUnderutilized
  | allUnderutilized
  | noReceivers
  | evictionLoop (sourceNodes highNodes : List NodeUsage)
deriving DecidableEq

/-- The strategy value the caller observes after the run: the configuration
record is reached through a pointer, so the run's writes to it
(highnodeutilization.go lines 53 and 60) are visible to the caller. -/
def withConfig (p : StrategyParams) (cfg : NRUThresholds) :
    DeschedulerStrategy :=
  { params := some { p with nodeResourceUtilizationThresholds := some cfg } }

/-- The classification step of the run (highnodeutilization.go lines 62-73):
each node's usage is computed by the external Usage Calculator (`usageOf`),
and the classifier is applied with the two predicates of the high-utilization
direction. -/
def classifySourceAndHigh (cfg : NRUThresholds) (nodes : List Node)
    (usageOf : Node → List (String × Rat)) :
    List NodeUsage × List NodeUsage :=
  classifyNodes (nodes.map (fun n => NodeUsage.mk n (usageOf n)))
    (lowUtilDonorFilter cfg.thresholds)
    (highUtilReceiverFilter cfg.thresholds)

/-- The pre-flight guards of the run (highnodeutilization.go lines 90-105),
evaluated over the classified source and destination sequences; falling
through every guard enters the eviction loop. -/
def runGuards (nodes : List Node) (cfg : NRUThresholds)
    (s h : List NodeUsage) : RunOutcome :=
  if s.length = 0 then RunOutcome.noUnderutilized
  else if (s.length : Int) ≤ cfg.numberOfNodes then
    RunOutcome.tooFewUnderutilized
  else if s.length = nodes.length then RunOutcome.allUnderutilized
  else if h.length = 0 then RunOutcome.noReceivers
  else RunOutcome.evictionLoop s h

/-- The body of the run once the configuration record has been obtained
(highnodeutilization.go lines 52-128): the target map is replaced by a fresh
empty one, the strategy configuration is validated, defaults are applied,
nodes are classified and the guards run. -/
def runWithConfig (p : StrategyParams) (cfg0 : NRUThresholds)
    (nodes : List Node) (usageOf : Node → List (String × Rat)) :
    RunOutcome × DeschedulerStrategy :=
  let cfg1 : NRUThresholds := { cfg0 with targetThresholds := [] }
  match validateHighUtilizationStrategyConfig cfg1 with
  | some _ => (RunOutcome.invalidConfig, withConfig p cfg1)
  | none =>
    let cfg2 := setDefaultForThresholds cfg1
    let pair := classifySourceAndHigh cfg2 nodes usageOf
    (runGuards nodes cfg2 pair.1 pair.2, withConfig p cfg2)

/-- Shallow embedding of `HighNodeUtilization` (highnodeutilization.go lines
35-129).  External collaborators enter as explicit inputs: `priorityOk` is
the success of `GetPriorityFromStrategyParams`, `usageOf` the per-node result
of the Usage Calculator.  The guarded `NodeFit` read (lines 41-44) has no
observable effect here; the eviction loop itself
(`evictPodsFromSourceNodes`) is an external collaborator, so reaching it is
reported as the `evictionLoop` outcome.  The returned strategy is the state
the caller observes after the call. -/
def highNodeUtilization (strategy : DeschedulerStrategy) (nodes : List Node)
    (priorityOk : Bool) (usageOf : Node → List (String × Rat)) :
    RunOutcome × DeschedulerStrategy :=
  match validateNodeUtilizationParams strategy.params with
  | some _ => (RunOutcome.invalidParams, strategy)
  | none =>
    if priorityOk = false then (RunOutcome.priorityError, strategy)
    else
      match strategy.params with
      | none => (RunOutcome.nilDereference, strategy)
      | some p =>
        match p.nodeResourceUtilizationThresholds with
        | none => (RunOutcome.nilDereference, strategy)
        | some cfg0 => runWithConfig p cfg0 nodes usageOf

/-- Evictions a finished run performed, given any possible eviction count
`loopEvictions` of the external eviction loop: every early return performs
zero evictions. -/
def evictionsPerformed
    (loopEvictions : List NodeUsage → List NodeUsage → Nat) :
    RunOutcome → Nat
  | RunOutcome.evictionLoop s h => loopEvictions s h
  | _ => 0

/-- The configuration with its target map replaced (the write
`strategyConfig.TargetThresholds = ...` of highnodeutilization.go line 53,
seen as a function of the new map). -/
def withTargetMap (cfg : NRUThresholds) (T : ResourceThresholds) :
    NRUThresholds :=
  { cfg with targetThresholds := T }

/-- Strategy parameters with their configuration record replaced. -/
def withNRUConfig (p : StrategyParams) (cfg : NRUThresholds) :
    StrategyParams :=
  { p with nodeResourceUtilizationThresholds := some cfg }

/-- A validation result that is a range error (the error class that names an
offending resource kind and the bounds 0 and 100). -/
def isRangeError : Option ConfigError → Bool
  | some (ConfigError.outOfRange _) => true
  | _ => false

/-- Sample node used to instantiate witnesses. -/
def sampleNode : Node := ⟨"node-a", false⟩

/-- Sample node usage used to instantiate witnesses. -/
def sampleUsage : NodeUsage := ⟨sampleNode, [(resourceCPU, 50)]⟩

/-- Sample low-threshold map used to instantiate witnesses. -/
def sampleLow : ResourceThresholds := [(resourceCPU, 20)]

/-- Sample underutilized node usage used to instantiate witnesses. -/
def sampleDonorUsage : NodeUsage := ⟨⟨"node-b", false⟩, [(resourceCPU, 10)]⟩

/-- The configuration of the C1 failing input: the caller supplies a
non-empty target map alongside a valid low map. -/
def callerTargetCfg : NRUThresholds :=
  ⟨false, [(resourceCPU, 40)], [(resourceCPU, 50)], 0⟩

/-- Strategy parameters wrapping `callerTargetCfg`. -/
def callerTargetParams : StrategyParams := ⟨false, some callerTargetCfg⟩

/-- Concrete configuration for the C7 witness: donor count will be 1, below
the configured NumberOfNodes of 5. -/
def guardWitnessCfg : NRUThresholds := ⟨false, [(resourceCPU, 30)], [], 5⟩

/-- Strategy parameters wrapping `guardWitnessCfg`. -/
def guardWitnessParams : StrategyParams := ⟨false, some guardWitnessCfg⟩

/-- Concrete usage function for the C7 witness: every node runs at 10% cpu,
below the 30% low threshold. -/
def guardWitnessUsage : Node → List (String × Rat) :=
  fun _ => [(resourceCPU, 10)]

/-- The C8 counterexample configuration: the low map holds the standard
(non-extended) kind storage with the out-of-range value 150. -/
def badNameRangeCfg : NRUThresholds :=
  ⟨false, [(resourceStorage, 150)], [(resourceCPU, 50)], 0⟩

/-- Concrete configuration for the C8 amended-claim witness: cpu is out of
range in the low map. -/
def rangeWitnessCfg : NRUThresholds :=
  ⟨false, [(resourceCPU, 110)], [(resourceCPU, 50)], 0⟩

end NodeUtilization

namespace NodeUtilization

/-- Claim C2: the continuation predicate supplied by HighNodeUtilization
returns false iff some tracked resource kind's total available amount has
reached zero (is ≤ 0), and returns true when every tracked amount is strictly
positive. -/
theorem continueEvictionCond_false_iff (u : NodeUsage)
    (t : List (String × Int)) :
    (continueEvictionCond u t = false ↔ ∃ p ∈ t, p.2 ≤ 0)
    ∧ ((∀ p ∈ t, 0 < p.2) → continueEvictionCond u t = true) := by
  constructor
  · induction t with
    | nil => simp [continueEvictionCond]
    | cons hd tl ih =>
      by_cases h : hd.2 ≤ 0
      · constructor
        · intro _
          exact ⟨hd, List.mem_cons_self _ _, h⟩
        · intro _
          simp [continueEvictionCond, h]
      · simp only [continueEvictionCond, if_neg h]
        rw [ih]
        constructor
        · rintro ⟨p, hp, hple⟩
          exact ⟨p, List.mem_cons_of_mem _ hp, hple⟩
        · rintro ⟨p, hp, hple⟩
          rcases List.mem_cons.mp hp with heq | hmem
          · exact absurd (heq ▸ hple) h
          · exact ⟨p, hmem, hple⟩
  · intro hall
    induction t with
    | nil => rfl
    | cons hd tl ih =>
      have hhd : ¬ hd.2 ≤ 0 := not_le.mpr (hall hd (List.mem_cons_self _ _))
      simp only [continueEvictionCond, if_neg hhd]
      exact ih (fun p hp => hall p (List.mem_cons_of_mem _ hp))

/-- Witness for C2 at a concrete ledger with all amounts positive. -/
theorem continueEvictionCond_false_iff_witness :
    (∀ p ∈ [(resourceCPU, (2 : Int)), (resourceMemory, 1)], 0 < p.2)
    ∧ continueEvictionCond sampleUsage
        [(resourceCPU, (2 : Int)), (resourceMemory, 1)] = true := by
  refine ⟨by decide, ?_⟩
  exact (continueEvictionCond_false_iff sampleUsage _).2 (by decide)

theorem RTlookup_RTinsert_self (m : ResourceThresholds) (k : String)
    (v : Rat) : RTlookup (RTinsert m k v) k = some v := by
  induction m with
  | nil => simp [RTinsert, RTlookup]
  | cons hd tl ih =>
    obtain ⟨k0, v0⟩ := hd
    by_cases h : k0 = k
    · simp [RTinsert, RTlookup, h]
    · simp [RTinsert, RTlookup, h, ih]

theorem RTlookup_RTinsert_ne (m : ResourceThresholds) (k key : String)
    (v : Rat) (h : k ≠ key) :
    RTlookup (RTinsert m k v) key = RTlookup m key := by
  induction m with
  | nil => simp [RTinsert, RTlookup, h]
  | cons hd tl ih =>
    obtain ⟨k0, v0⟩ := hd
    by_cases h0 : k0 = k
    · subst h0
      simp [RTinsert, RTlookup, h]
    · simp [RTinsert, RTlookup, h0, ih]

theorem RTlookup_RTinsert_isSome (m : ResourceThresholds) (k key : String)
    (v : Rat) (h : (RTlookup m key).isSome = true) :
    (RTlookup (RTinsert m k v) key).isSome = true := by
  by_cases hk : k = key
  · subst hk
    simp [RTlookup_RTinsert_self]
  · rw [RTlookup_RTinsert_ne m k key v hk]
    exact h

theorem mem_RTinsert (m : ResourceThresholds) (k : String) (v : Rat) :
    ∀ q ∈ RTinsert m k v, q = (k, v) ∨ q ∈ m := by
  induction m with
  | nil =>
    intro q hq
    simp only [RTinsert, List.mem_singleton] at hq
    exact Or.inl hq
  | cons hd tl ih =>
    intro q hq
    obtain ⟨k0, v0⟩ := hd
    by_cases h : k0 = k
    · simp only [RTinsert, if_pos h, List.mem_cons] at hq
      rcases hq with hq | hq
      · exact Or.inl hq
      · exact Or.inr (List.mem_cons_of_mem _ hq)
    · simp only [RTinsert, if_neg h, List.mem_cons] at hq
      rcases hq with hq | hq
      · exact Or.inr (hq ▸ List.mem_cons_self _ _)
      · rcases ih q hq with hq | hq
        · exact Or.inl hq
        · exact Or.inr (List.mem_cons_of_mem _ hq)

theorem addDefaultIfMissing_preserve_some (m : ResourceThresholds)
    (k key : String) (v : Rat) (h : RTlookup m key = some v) :
    RTlookup (addDefaultIfMissing m k) key = some v := by
  unfold addDefaultIfMissing
  by_cases hs : (RTlookup m k).isSome = true
  · rw [if_pos hs]; exact h
  · rw [if_neg hs]
    by_cases hk : k = key
    · subst hk
      rw [h] at hs
      simp at hs
    · rw [RTlookup_RTinsert_ne m k key _ hk]
      exact h

theorem addDefaultIfMissing_self_none (m : ResourceThresholds) (key : String)
    (h : RTlookup m key = none) :
    RTlookup (addDefaultIfMissing m key) key = some MaxResourcePercentage := by
  unfold addDefaultIfMissing
  rw [h]
  simp [RTlookup_RTinsert_self]

theorem addDefaultIfMissing_ne (m : ResourceThresholds) (k key : String)
    (h : k ≠ key) :
    RTlookup (addDefaultIfMissing m k) key = RTlookup m key := by
  unfold addDefaultIfMissing
  by_cases hs : (RTlookup m k).isSome = true
  · rw [if_pos hs]
  · rw [if_neg hs, RTlookup_RTinsert_ne m k key _ h]

theorem addDefaultIfMissing_isSome_self (m : ResourceThresholds)
    (key : String) :
    (RTlookup (addDefaultIfMissing m key) key).isSome = true := by
  cases h : RTlookup m key with
  | none => simp [addDefaultIfMissing_self_none m key h]
  | some v => simp [addDefaultIfMissing_preserve_some m key key v h]

theorem addDefaultIfMissing_isSome (m : ResourceThresholds) (k key : String)
    (h : (RTlookup m key).isSome = true) :
    (RTlookup (addDefaultIfMissing m k) key).isSome = true := by
  by_cases hk : k = key
  · subst hk; exact addDefaultIfMissing_isSome_self m k
  · rw [addDefaultIfMissing_ne m k key hk]; exact h

theorem defaultExtendedTargets_cons (target : ResourceThresholds)
    (hd : String × Rat) (tl : ResourceThresholds) :
    defaultExtendedTargets target (hd :: tl)
      = defaultExtendedTargets
          (if isBasicResource hd.1 then target
           else RTinsert target hd.1 MaxResourcePercentage) tl := rfl

theorem RTlookup_defaultExtendedTargets_basic (low : ResourceThresholds)
    (key : String) (h : isBasicResource key = true) :
    ∀ target : ResourceThresholds,
      RTlookup (defaultExtendedTargets target low) key
        = RTlookup target key := by
  induction low with
  | nil => intro target; rfl
  | cons hd tl ih =>
    intro target
    rw [defaultExtendedTargets_cons]
    by_cases hb : isBasicResource hd.1
    · rw [if_pos hb, ih]
    · rw [if_neg hb, ih]
      have hne : hd.1 ≠ key := by
        intro he
        rw [he, h] at hb
        exact hb rfl
      exact RTlookup_RTinsert_ne target hd.1 key _ hne

theorem RTlookup_defaultExtendedTargets_nonbasic (low : ResourceThresholds)
    (key : String) (h : isBasicResource key = false) :
    ∀ target : ResourceThresholds,
      RTlookup (defaultExtendedTargets target low) key
        = if (RTlookup low key).isSome then some MaxResourcePercentage
          else RTlookup target key := by
  induction low with
  | nil => intro target; simp [defaultExtendedTargets, RTlookup]
  | cons hd tl ih =>
    intro target
    obtain ⟨k0, v0⟩ := hd
    rw [defaultExtendedTargets_cons, ih]
    by_cases hk : k0 = key
    · subst hk
      rw [h]
      simp only [RTlookup, if_pos rfl, Option.isSome_some, if_true]
      by_cases hs : (RTlookup tl k0).isSome = true
      · rw [if_pos hs]
      · rw [if_neg hs, if_neg]
        · exact RTlookup_RTinsert_self target k0 _
        · exact Bool.false_ne_true
    · have hlk : RTlookup ((k0, v0) :: tl) key = RTlookup tl key := by
        simp [RTlookup, hk]
      rw [hlk]
      by_cases hs : (RTlookup tl key).isSome = true
      · rw [if_pos hs, if_pos hs]
      · rw [if_neg hs, if_neg hs]
        by_cases hb : isBasicResource k0
        · rw [if_pos hb]
        · rw [if_neg hb]
          exact RTlookup_RTinsert_ne target k0 key _ hk

theorem mem_defaultExtendedTargets (low : ResourceThresholds) :
    ∀ target : ResourceThresholds,
      (∀ q ∈ target, q.2 = MaxResourcePercentage) →
      ∀ q ∈ defaultExtendedTargets target low,
        q.2 = MaxResourcePercentage := by
  induction low with
  | nil => intro target hall; exact hall
  | cons hd tl ih =>
    intro target hall
    rw [defaultExtendedTargets_cons]
    apply ih
    intro q hq
    by_cases hb : isBasicResource hd.1
    · rw [if_pos hb] at hq
      exact hall q hq
    · rw [if_neg hb] at hq
      rcases mem_RTinsert target hd.1 MaxResourcePercentage q hq with hq | hq
      · rw [hq]
      · exact hall q hq

theorem RTlookup_basicTargets_cpu (m : ResourceThresholds) :
    RTlookup (basicTargets m) resourceCPU = some MaxResourcePercentage := by
  unfold basicTargets
  rw [RTlookup_RTinsert_ne _ _ _ _ (by decide)]
  exact RTlookup_RTinsert_self _ _ _

theorem RTlookup_basicTargets_memory (m : ResourceThresholds) :
    RTlookup (basicTargets m) resourceMemory = some MaxResourcePercentage :=
  RTlookup_RTinsert_self _ _ _

theorem RTlookup_basicTargets_pods (m : ResourceThresholds) :
    RTlookup (basicTargets m) resourcePods = some MaxResourcePercentage := by
  unfold basicTargets
  rw [RTlookup_RTinsert_ne _ _ _ _ (by decide),
    RTlookup_RTinsert_ne _ _ _ _ (by decide)]
  exact RTlookup_RTinsert_self _ _ _

/-- Claim C3: after setDefaultForThresholds runs, the target threshold map
maps cpu, memory and pod-count, and every non-basic (extended) resource kind
present in the low threshold map, each to the maximum percentage value 100. -/
theorem setDefaultForThresholds_targets_hundred (t : NRUThresholds) :
    (RTlookup (setDefaultForThresholds t).targetThresholds resourceCPU
        = some MaxResourcePercentage
      ∧ RTlookup (setDefaultForThresholds t).targetThresholds resourceMemory
        = some MaxResourcePercentage
      ∧ RTlookup (setDefaultForThresholds t).targetThresholds resourcePods
        = some MaxResourcePercentage)
    ∧ ∀ k, (RTlookup t.thresholds k).isSome = true →
        isBasicResource k = false →
        RTlookup (setDefaultForThresholds t).targetThresholds k
          = some MaxResourcePercentage := by
  have htgt : (setDefaultForThresholds t).targetThresholds
      = defaultExtendedTargets (basicTargets t.targetThresholds)
          (defaultBasicLow t.thresholds) := rfl
  constructor
  · refine ⟨?_, ?_, ?_⟩
    · rw [htgt, RTlookup_defaultExtendedTargets_basic _ _ (by decide)]
      exact RTlookup_basicTargets_cpu _
    · rw [htgt, RTlookup_defaultExtendedTargets_basic _ _ (by decide)]
      exact RTlookup_basicTargets_memory _
    · rw [htgt, RTlookup_defaultExtendedTargets_basic _ _ (by decide)]
      exact RTlookup_basicTargets_pods _
  · intro k hk hnb
    have hlow : (RTlookup (defaultBasicLow t.thresholds) k).isSome = true := by
      unfold defaultBasicLow
      exact addDefaultIfMissing_isSome _ _ _
        (addDefaultIfMissing_isSome _ _ _
          (addDefaultIfMissing_isSome _ _ _ hk))
    rw [htgt, RTlookup_defaultExtendedTargets_nonbasic _ _ hnb, if_pos hlow]

/-- Witness for C3 at a concrete configuration carrying an extended resource
kind in the low map. -/
theorem setDefaultForThresholds_targets_hundred_witness :
    (RTlookup
        (setDefaultForThresholds
          ⟨false, [("example.com/foo", 30)], [], 0⟩).targetThresholds
        "example.com/foo" = some MaxResourcePercentage) := by
  have h := (setDefaultForThresholds_targets_hundred
    ⟨false, [("example.com/foo", 30)], [], 0⟩).2 "example.com/foo"
    (by decide) (by decide)
  exact h

/-- Claim C4: after setDefaultForThresholds runs, both maps contain entries
for cpu, memory and pod-count; a missing basic kind in the low map is filled
in with 100 and a basic-kind entry already present keeps its value. -/
theorem setDefaultForThresholds_basic_entries (t : NRUThresholds) :
    ((RTlookup (setDefaultForThresholds t).thresholds resourceCPU).isSome
        = true
      ∧ (RTlookup (setDefaultForThresholds t).thresholds
          resourceMemory).isSome = true
      ∧ (RTlookup (setDefaultForThresholds t).thresholds
          resourcePods).isSome = true
      ∧ (RTlookup (setDefaultForThresholds t).targetThresholds
          resourceCPU).isSome = true
      ∧ (RTlookup (setDefaultForThresholds t).targetThresholds
          resourceMemory).isSome = true
      ∧ (RTlookup (setDefaultForThresholds t).targetThresholds
          resourcePods).isSome = true)
    ∧ (∀ k v, isBasicResource k = true → RTlookup t.thresholds k = some v →
        RTlookup (setDefaultForThresholds t).thresholds k = some v)
    ∧ (∀ k, isBasicResource k = true → RTlookup t.thresholds k = none →
        RTlookup (setDefaultForThresholds t).thresholds k
          = some MaxResourcePercentage) := by
  have hth : (setDefaultForThresholds t).thresholds
      = defaultBasicLow t.thresholds := rfl
  have hcm : resourceCPU ≠ resourceMemory := by decide
  have hcp : resourceCPU ≠ resourcePods := by decide
  have hmc : resourceMemory ≠ resourceCPU := by decide
  have hmp : resourceMemory ≠ resourcePods := by decide
  have hpc : resourcePods ≠ resourceCPU := by decide
  have hpm : resourcePods ≠ resourceMemory := by decide
  have h3 := setDefaultForThresholds_targets_hundred t
  constructor
  · refine ⟨?_, ?_, ?_, ?_, ?_, ?_⟩
    · rw [hth]
      unfold defaultBasicLow
      rw [addDefaultIfMissing_ne _ _ _ hmc]
      exact addDefaultIfMissing_isSome_self _ _
    · rw [hth]
      unfold defaultBasicLow
      exact addDefaultIfMissing_isSome_self _ _
    · rw [hth]
      unfold defaultBasicLow
      rw [addDefaultIfMissing_ne _ _ _ hmp, addDefaultIfMissing_ne _ _ _ hcp]
      exact addDefaultIfMissing_isSome_self _ _
    · rw [h3.1.1]; rfl
    · rw [h3.1.2.1]; rfl
    · rw [h3.1.2.2]; rfl
  constructor
  · intro k v _ hv
    rw [hth]
    unfold defaultBasicLow
    exact addDefaultIfMissing_preserve_some _ _ _ _
      (addDefaultIfMissing_preserve_some _ _ _ _
        (addDefaultIfMissing_preserve_some _ _ _ _ hv))
  · intro k hb hnone
    have hk : (k = resourceCPU ∨ k = resourceMemory) ∨ k = resourcePods := by
      simpa [isBasicResource, decide_eq_true_eq] using hb
    rw [hth]
    unfold defaultBasicLow
    rcases hk with (hk | hk) | hk
    · subst hk
      rw [addDefaultIfMissing_ne _ _ _ hmc]
      have h1 : RTlookup (addDefaultIfMissing t.thresholds resourcePods)
          resourceCPU = none := by
        rw [addDefaultIfMissing_ne _ _ _ hpc]; exact hnone
      exact addDefaultIfMissing_self_none _ _ h1
    · subst hk
      have h1 : RTlookup (addDefaultIfMissing t.thresholds resourcePods)
          resourceMemory = none := by
        rw [addDefaultIfMissing_ne _ _ _ hpm]; exact hnone
      have h2 : RTlookup
          (addDefaultIfMissing
            (addDefaultIfMissing t.thresholds resourcePods) resourceCPU)
          resourceMemory = none := by
        rw [addDefaultIfMissing_ne _ _ _ hcm]; exact h1
      exact addDefaultIfMissing_self_none _ _ h2
    · subst hk
      rw [addDefaultIfMissing_ne _ _ _ hmp, addDefaultIfMissing_ne _ _ _ hcp]
      exact addDefaultIfMissing_self_none _ _ hnone

/-- Witness for C4 at a concrete configuration: cpu present with value 20 is
kept, memory missing is filled with 100. -/
theorem setDefaultForThresholds_basic_entries_witness :
    RTlookup
        (setDefaultForThresholds
          ⟨false, [(resourceCPU, 20)], [], 0⟩).thresholds resourceCPU
      = some 20
    ∧ RTlookup
        (setDefaultForThresholds
          ⟨false, [(resourceCPU, 20)], [], 0⟩).thresholds resourceMemory
      = some MaxResourcePercentage := by
  constructor
  · exact (setDefaultForThresholds_basic_entries
      ⟨false, [(resourceCPU, 20)], [], 0⟩).2.1 resourceCPU 20
      (by decide) (by decide)
  · exact (setDefaultForThresholds_basic_entries
      ⟨false, [(resourceCPU, 20)], [], 0⟩).2.2 resourceMemory
      (by decide) (by decide)

/-- Claim C6: the receiver predicate of HighNodeUtilization is true iff the
node is schedulable and is not a low-utilization node. -/
theorem highUtilReceiverFilter_iff (low : ResourceThresholds) (node : Node)
    (usage : NodeUsage) :
    highUtilReceiverFilter low node usage
      = (!(isNodeUnschedulable node)
          && !(isNodeWithLowUtilization low usage)) := by
  unfold highUtilReceiverFilter
  by_cases hu : isNodeUnschedulable node = true
  · rw [if_pos hu, hu]
    rfl
  · rw [if_neg hu]
    rw [Bool.not_eq_true] at hu
    rw [hu]
    rfl

/-- Claim C5: the donor and receiver predicates of HighNodeUtilization are
never both true; the classified source and destination sequences of a run are
therefore disjoint, and a node satisfying neither predicate appears in
neither sequence. -/
theorem highNodeUtilization_classification_disjoint
    (low : ResourceThresholds) (usages : List NodeUsage) :
    (∀ n u, ¬(lowUtilDonorFilter low n u = true
        ∧ highUtilReceiverFilter low n u = true))
    ∧ (∀ u ∈ (classifyNodes usages (lowUtilDonorFilter low)
          (highUtilReceiverFilter low)).1,
        u ∉ (classifyNodes usages (lowUtilDonorFilter low)
          (highUtilReceiverFilter low)).2)
    ∧ (∀ u ∈ usages, lowUtilDonorFilter low u.node u = false →
        highUtilReceiverFilter low u.node u = false →
        u ∉ (classifyNodes usages (lowUtilDonorFilter low)
            (highUtilReceiverFilter low)).1
        ∧ u ∉ (classifyNodes usages (lowUtilDonorFilter low)
            (highUtilReceiverFilter low)).2) := by
  have hnot : ∀ n u, ¬(lowUtilDonorFilter low n u = true
      ∧ highUtilReceiverFilter low n u = true) := by
    rintro n u ⟨h1, h2⟩
    unfold lowUtilDonorFilter at h1
    unfold highUtilReceiverFilter at h2
    by_cases hu : isNodeUnschedulable n = true
    · rw [if_pos hu] at h2
      exact Bool.false_ne_true h2
    · rw [if_neg hu, h1] at h2
      exact Bool.false_ne_true h2
  refine ⟨hnot, ?_, ?_⟩
  · intro u hu hmem
    rw [classifyNodes, List.mem_filter] at hu hmem
    exact hnot u.node u ⟨hu.2, hmem.2⟩
  · intro u _ h1 h2
    constructor
    · intro hmem
      rw [classifyNodes, List.mem_filter] at hmem
      rw [h1] at hmem
      exact Bool.false_ne_true hmem.2
    · intro hmem
      rw [classifyNodes, List.mem_filter] at hmem
      rw [h2] at hmem
      exact Bool.false_ne_true hmem.2

/-- Witness for C5: a concrete donor node is classified into the source
sequence and not into the destination sequence. -/
theorem highNodeUtilization_classification_disjoint_witness :
    sampleDonorUsage ∈ (classifyNodes [sampleDonorUsage]
      (lowUtilDonorFilter sampleLow)
      (highUtilReceiverFilter sampleLow)).1
    ∧ sampleDonorUsage ∉ (classifyNodes [sampleDonorUsage]
      (lowUtilDonorFilter sampleLow)
      (highUtilReceiverFilter sampleLow)).2 := by
  refine ⟨by decide, ?_⟩
  exact (highNodeUtilization_classification_disjoint sampleLow
    [sampleDonorUsage]).2.1 sampleDonorUsage (by decide)

/-- Claim C10: a call whose strategy.Params is nil is stopped by the initial
parameter validation, so the unconditional dereference of strategy.Params
after the nil-guarded NodeFit read is never reached with a nil pointer. -/
theorem highNodeUtilization_nil_params_safe (nodes : List Node)
    (priorityOk : Bool) (usageOf : Node → List (String × Rat)) :
    (highNodeUtilization ⟨none⟩ nodes priorityOk usageOf).1
      = RunOutcome.invalidParams
    ∧ (highNodeUtilization ⟨none⟩ nodes priorityOk usageOf).1
      ≠ RunOutcome.nilDereference := by
  have h1 : (highNodeUtilization ⟨none⟩ nodes priorityOk usageOf).1
      = RunOutcome.invalidParams := rfl
  refine ⟨h1, ?_⟩
  rw [h1]
  intro h
  cases h

theorem highNodeUtilization_eq_runWithConfig (p : StrategyParams)
    (cfg0 : NRUThresholds) (nodes : List Node)
    (usageOf : Node → List (String × Rat))
    (hcfg : p.nodeResourceUtilizationThresholds = some cfg0) :
    highNodeUtilization ⟨some p⟩ nodes true usageOf
      = runWithConfig p cfg0 nodes usageOf := by
  obtain ⟨nf, nru⟩ := p
  cases hcfg
  rfl

theorem highNodeUtilization_priorityError (p : StrategyParams)
    (cfg0 : NRUThresholds) (nodes : List Node)
    (usageOf : Node → List (String × Rat))
    (hcfg : p.nodeResourceUtilizationThresholds = some cfg0) :
    highNodeUtilization ⟨some p⟩ nodes false usageOf
      = (RunOutcome.priorityError, ⟨some p⟩) := by
  obtain ⟨nf, nru⟩ := p
  cases hcfg
  rfl

theorem runGuards_not_loop_of_le (nodes : List Node) (cfg : NRUThresholds)
    (s h : List NodeUsage) (hle : (s.length : Int) ≤ cfg.numberOfNodes) :
    ∀ s2 h2, runGuards nodes cfg s h ≠ RunOutcome.evictionLoop s2 h2 := by
  intro s2 h2
  unfold runGuards
  by_cases h0 : s.length = 0
  · rw [if_pos h0]
    intro hc
    cases hc
  · rw [if_neg h0, if_pos hle]
    intro hc
    cases hc

theorem evictionsPerformed_eq_zero
    (loopEvictions : List NodeUsage → List NodeUsage → Nat) (o : RunOutcome)
    (h : ∀ s hn, o ≠ RunOutcome.evictionLoop s hn) :
    evictionsPerformed loopEvictions o = 0 := by
  cases o with
  | evictionLoop s hn => exact absurd rfl (h s hn)
  | invalidParams => rfl
  | priorityError => rfl
  | nilDereference => rfl
  | invalidConfig => rfl
  | noUnderutilized => rfl
  | tooFewUnderutilized => rfl
  | allUnderutilized => rfl
  | noReceivers => rfl

/-- Claim C7: a run of HighNodeUtilization whose classified donor count is at
most the configured NumberOfNodes — including exact equality — returns before
the eviction loop is entered and performs zero evictions. -/
theorem highNodeUtilization_numberOfNodes_guard
    (p : StrategyParams) (cfg0 : NRUThresholds) (nodes : List Node)
    (priorityOk : Bool) (usageOf : Node → List (String × Rat))
    (loopEvictions : List NodeUsage → List NodeUsage → Nat)
    (hcfg : p.nodeResourceUtilizationThresholds = some cfg0)
    (hcount : ((classifySourceAndHigh
        (setDefaultForThresholds { cfg0 with targetThresholds := [] })
        nodes usageOf).1.length : Int) ≤ cfg0.numberOfNodes) :
    (∀ s h, (highNodeUtilization ⟨some p⟩ nodes priorityOk usageOf).1
        ≠ RunOutcome.evictionLoop s h)
    ∧ evictionsPerformed loopEvictions
        (highNodeUtilization ⟨some p⟩ nodes priorityOk usageOf).1 = 0 := by
  have key : ∀ s h,
      (highNodeUtilization ⟨some p⟩ nodes priorityOk usageOf).1
        ≠ RunOutcome.evictionLoop s h := by
    intro s h
    cases priorityOk with
    | false =>
      rw [highNodeUtilization_priorityError p cfg0 nodes usageOf hcfg]
      intro hc
      cases hc
    | true =>
      rw [highNodeUtilization_eq_runWithConfig p cfg0 nodes usageOf hcfg]
      unfold runWithConfig
      cases hv : validateHighUtilizationStrategyConfig
          { cfg0 with targetThresholds := [] } with
      | some e =>
        simp only [hv]
        intro hc
        cases hc
      | none =>
        simp only [hv]
        exact runGuards_not_loop_of_le nodes _ _ _ hcount s h
  exact ⟨key, evictionsPerformed_eq_zero loopEvictions _ key⟩

/-- Witness for C7: a single donor node with NumberOfNodes = 5 yields zero
evictions regardless of how many evictions the loop could have performed. -/
theorem highNodeUtilization_numberOfNodes_guard_witness :
    evictionsPerformed (fun _ _ => 7)
      (highNodeUtilization ⟨some guardWitnessParams⟩ [sampleNode] true
        guardWitnessUsage).1 = 0 :=
  (highNodeUtilization_numberOfNodes_guard guardWitnessParams guardWitnessCfg
    [sampleNode] true guardWitnessUsage (fun _ _ => 7) rfl (by decide)).2

/-- Claim C1 (evaluation at the failing input): the caller supplies a
non-empty TargetThresholds map; the standalone validator would reject that
configuration with "targetThresholds is not applicable for
HighNodeUtilization", but the run replaces the target map with a fresh empty
one before validating (highnodeutilization.go line 53), so the check at line
132 never fires and the run proceeds past validation instead of failing. -/
theorem highNodeUtilization_targetThresholds_check_bypassed :
    validateHighUtilizationStrategyConfig callerTargetCfg
      = some ConfigError.targetNotApplicable
    ∧ (highNodeUtilization ⟨some callerTargetParams⟩ [] true
        (fun _ => [])).1 = RunOutcome.noUnderutilized
    ∧ (highNodeUtilization ⟨some callerTargetParams⟩ [] true
        (fun _ => [])).1 ≠ RunOutcome.invalidConfig := by
  refine ⟨by decide, rfl, ?_⟩
  intro hc
  cases hc

/-- Claim C9: HighNodeUtilization mutates the caller's configuration object:
the caller-supplied target map is replaced by a fresh map before validation
runs and is then populated with default entries of 100; after the call the
caller observes that defaulted map — the run's result is the same for every
target map the caller could have supplied. -/
theorem highNodeUtilization_discards_caller_targets
    (p : StrategyParams) (cfg0 : NRUThresholds) (nodes : List Node)
    (usageOf : Node → List (String × Rat))
    (hcfg : p.nodeResourceUtilizationThresholds = some cfg0)
    (hvalid : validateThresholdsHigh { cfg0 with targetThresholds := [] }
      = none) :
    ∃ cfgFinal : NRUThresholds,
      (highNodeUtilization ⟨some p⟩ nodes true usageOf).2.params
        = some (withNRUConfig p cfgFinal)
      ∧ cfgFinal.targetThresholds
        = (setDefaultForThresholds (withTargetMap cfg0 [])).targetThresholds
      ∧ (∀ q ∈ cfgFinal.targetThresholds, q.2 = MaxResourcePercentage)
      ∧ ∀ T : ResourceThresholds,
          highNodeUtilization
            ⟨some (withNRUConfig p (withTargetMap cfg0 T))⟩ nodes true usageOf
          = highNodeUtilization ⟨some p⟩ nodes true usageOf := by
  have hv : validateHighUtilizationStrategyConfig
      { cfg0 with targetThresholds := [] } = none := by
    unfold validateHighUtilizationStrategyConfig
    rw [hvalid]
    rfl
  have hrun : highNodeUtilization ⟨some p⟩ nodes true usageOf
      = runWithConfig p cfg0 nodes usageOf :=
    highNodeUtilization_eq_runWithConfig p cfg0 nodes usageOf hcfg
  refine ⟨setDefaultForThresholds { cfg0 with targetThresholds := [] },
    ?_, rfl, ?_, ?_⟩
  · rw [hrun]
    unfold runWithConfig
    simp only [hv]
    rfl
  · have hbase : ∀ q ∈ basicTargets ([] : ResourceThresholds),
        q.2 = MaxResourcePercentage := by decide
    exact mem_defaultExtendedTargets _ _ hbase
  · intro T
    rw [hrun,
      highNodeUtilization_eq_runWithConfig
        (withNRUConfig p (withTargetMap cfg0 T))
        (withTargetMap cfg0 T) nodes usageOf rfl]
    rfl

/-- Witness for C9 at a concrete call whose caller supplies a non-empty
target map. -/
theorem highNodeUtilization_discards_caller_targets_witness :
    ∃ cfgFinal : NRUThresholds,
      (highNodeUtilization ⟨some callerTargetParams⟩ [] true
          (fun _ => [])).2.params
        = some (withNRUConfig callerTargetParams cfgFinal)
      ∧ cfgFinal.targetThresholds
        = (setDefaultForThresholds
            (withTargetMap callerTargetCfg [])).targetThresholds
      ∧ (∀ q ∈ cfgFinal.targetThresholds, q.2 = MaxResourcePercentage)
      ∧ ∀ T : ResourceThresholds,
          highNodeUtilization
            ⟨some (withNRUConfig callerTargetParams
              (withTargetMap callerTargetCfg T))⟩ []
            true (fun _ => [])
          = highNodeUtilization ⟨some callerTargetParams⟩ [] true
              (fun _ => []) :=
  highNodeUtilization_discards_caller_targets callerTargetParams
    callerTargetCfg [] (fun _ => []) rfl (by decide)

theorem findUnsupportedKey_eq_none (m : ResourceThresholds)
    (h : ∀ q ∈ m, isSupportedResource q.1 = true) :
    findUnsupportedKey m = none := by
  induction m with
  | nil => rfl
  | cons hd tl ih =>
    obtain ⟨k0, v0⟩ := hd
    have h0 : isSupportedResource k0 = true :=
      h (k0, v0) (List.mem_cons_self _ _)
    simp only [findUnsupportedKey, if_pos h0]
    exact ih (fun q hq => h q (List.mem_cons_of_mem _ hq))

theorem findViolatingKey_eq_none (bad : Rat → Bool) (m : ResourceThresholds)
    (h : ∀ q ∈ m, bad q.2 = false) : findViolatingKey bad m = none := by
  induction m with
  | nil => rfl
  | cons hd tl ih =>
    obtain ⟨k0, v0⟩ := hd
    have h0 : bad v0 = false := h (k0, v0) (List.mem_cons_self _ _)
    have h0f : ¬ bad v0 = true := by rw [h0]; exact Bool.false_ne_true
    simp only [findViolatingKey, if_neg h0f]
    exact ih (fun q hq => h q (List.mem_cons_of_mem _ hq))

theorem findViolatingKey_some (bad : Rat → Bool) (m : ResourceThresholds)
    (k : String) (h : findViolatingKey bad m = some k) :
    ∃ v, (k, v) ∈ m ∧ bad v = true := by
  induction m with
  | nil => cases h
  | cons hd tl ih =>
    obtain ⟨k0, v0⟩ := hd
    by_cases hb : bad v0 = true
    · simp only [findViolatingKey, if_pos hb] at h
      cases h
      exact ⟨v0, List.mem_cons_self _ _, hb⟩
    · simp only [findViolatingKey, if_neg hb] at h
      obtain ⟨v, hv, hbad⟩ := ih h
      exact ⟨v, List.mem_cons_of_mem _ hv, hbad⟩

theorem findViolatingKey_isSome_of_mem (bad : Rat → Bool)
    (m : ResourceThresholds) (q : String × Rat) (hq : q ∈ m)
    (hb : bad q.2 = true) : ∃ k, findViolatingKey bad m = some k := by
  induction m with
  | nil => cases hq
  | cons hd tl ih =>
    obtain ⟨k0, v0⟩ := hd
    by_cases hb0 : bad v0 = true
    · exact ⟨k0, by simp only [findViolatingKey, if_pos hb0]⟩
    · rcases List.mem_cons.mp hq with heq | hmem
      · rw [heq] at hb
        exact absurd hb hb0
      · obtain ⟨k, hk⟩ := ih hmem
        exact ⟨k, by simp only [findViolatingKey, if_neg hb0]; exact hk⟩

/-- Claim C8 counterexample: the configuration whose low map holds the
standard kind storage with the out-of-range value 150 contains a percentage
value outside the closed range 0..100 (and UseDeviationThresholds is false),
yet validation fails with the unsupported-name error, not with a range
error. -/
theorem validateThresholds_range_error_counterexample :
    badNameRangeCfg.useDeviationThresholds = false
    ∧ violatesRange 150 = true
    ∧ (resourceStorage, (150 : Rat)) ∈ badNameRangeCfg.thresholds
    ∧ validateThresholds badNameRangeCfg = some ConfigError.unsupportedName
    ∧ isRangeError (validateThresholds badNameRangeCfg) = false := by
  decide

/-- Claim C8 as amended: for every threshold configuration whose two maps are
non-empty and contain only supported resource kinds, any percentage value
violating the range rules — outside 0..100 in the low map, outside 0..100 in
the target map when UseDeviationThresholds is false, or below 0 in the target
map when it is true — makes validation fail with a range error naming an
offending resource kind and the bounds 0 and 100; values above 100 in the
target map are not violations when UseDeviationThresholds is true, and when
no value violates the rules validation succeeds. -/
theorem validateThresholds_range_amended (c : NRUThresholds)
    (h1 : c.thresholds ≠ []) (h2 : c.targetThresholds ≠ [])
    (h3 : ∀ q ∈ c.thresholds, isSupportedResource q.1 = true)
    (h4 : ∀ q ∈ c.targetThresholds, isSupportedResource q.1 = true) :
    (((∃ q ∈ c.thresholds, violatesRange q.2 = true)
        ∨ (∃ q ∈ c.targetThresholds,
            violatesTargetRange c.useDeviationThresholds q.2 = true)) →
      ∃ k, validateThresholds c = some (ConfigError.outOfRange k)
        ∧ ((∃ v, (k, v) ∈ c.thresholds ∧ violatesRange v = true)
           ∨ (∃ v, (k, v) ∈ c.targetThresholds
              ∧ violatesTargetRange c.useDeviationThresholds v = true)))
    ∧ ((∀ q ∈ c.thresholds, violatesRange q.2 = false) →
       (∀ q ∈ c.targetThresholds,
          violatesTargetRange c.useDeviationThresholds q.2 = false) →
       validateThresholds c = none) := by
  have he1 : c.thresholds.isEmpty = false := by
    cases hc : c.thresholds with
    | nil => exact absurd hc h1
    | cons a b => rfl
  have he2 : c.targetThresholds.isEmpty = false := by
    cases hc : c.targetThresholds with
    | nil => exact absurd hc h2
    | cons a b => rfl
  have hu1 : findUnsupportedKey c.thresholds = none :=
    findUnsupportedKey_eq_none c.thresholds h3
  have hu2 : findUnsupportedKey c.targetThresholds = none :=
    findUnsupportedKey_eq_none c.targetThresholds h4
  constructor
  · intro hviol
    cases hlow : findViolatingKey violatesRange c.thresholds with
    | some k =>
      refine ⟨k, ?_, Or.inl (findViolatingKey_some _ _ k hlow)⟩
      unfold validateThresholds
      rw [he1, he2, hu1, hu2, hlow]
      rfl
    | none =>
      have hclean : ∀ q ∈ c.thresholds, violatesRange q.2 = false := by
        intro q hq
        by_cases hb : violatesRange q.2 = true
        · obtain ⟨k, hk⟩ :=
            findViolatingKey_isSome_of_mem violatesRange c.thresholds q hq hb
          rw [hlow] at hk
          cases hk
        · exact Bool.eq_false_iff.mpr hb
      rcases hviol with ⟨q, hq, hb⟩ | ⟨q, hq, hb⟩
      · rw [hclean q hq] at hb
        cases hb
      · obtain ⟨k, hk⟩ := findViolatingKey_isSome_of_mem
          (violatesTargetRange c.useDeviationThresholds)
          c.targetThresholds q hq hb
        refine ⟨k, ?_, Or.inr (findViolatingKey_some _ _ k hk)⟩
        unfold validateThresholds
        rw [he1, he2, hu1, hu2, hlow, hk]
        rfl
  · intro hl ht
    unfold validateThresholds
    rw [he1, he2, hu1, hu2,
      findViolatingKey_eq_none violatesRange c.thresholds hl,
      findViolatingKey_eq_none
        (violatesTargetRange c.useDeviationThresholds) c.targetThresholds ht]
    rfl

/-- Witness for the amended C8 at a concrete configuration whose low map
holds cpu at the out-of-range value 110. -/
theorem validateThresholds_range_amended_witness :
    ∃ k, validateThresholds rangeWitnessCfg
        = some (ConfigError.outOfRange k)
      ∧ ((∃ v, (k, v) ∈ rangeWitnessCfg.thresholds ∧ violatesRange v = true)
         ∨ (∃ v, (k, v) ∈ rangeWitnessCfg.targetThresholds
            ∧ violatesTargetRange rangeWitnessCfg.useDeviationThresholds v
              = true)) :=
  (validateThresholds_range_amended rangeWitnessCfg (by decide) (by decide)
      (by decide) (by decide)).1
    (Or.inl ⟨(resourceCPU, 110), by decide, by decide⟩)

end NodeUtilization
